import Mathlib

/-!
# Pureport Terraform provider: resource drivers

A shallow embedding of the Create / Read / Update entry points of
`pureport/resource_network.go` and `pureport/resource_google_cloud_connection.go`
and of the Read of `pureport/data_source_accounts.go`.

Conventions of the embedding.

* A Go function of type `func(d *schema.ResourceData, m interface{}) error` becomes a
  function from the record `d`, the session `m` and the list of remote calls issued so far
  to a `Result`: the record afterwards, the remote calls issued so far, and how the call
  ended (`Ret`): it returned `nil`, it returned an error, or it stopped with a run-time
  panic.
* The remote client is an oracle: each of its operations maps the calls issued before it
  and its arguments to what the client returns.  Since the answer may depend on all
  earlier requests, this covers every deterministic remote service.
* Functions of the Go standard library and of the Terraform helper packages whose code is
  outside the repository (`url.Parse`, `structure.ExpandJsonFromString`,
  `regexp.MustCompile`, `json.Marshal`, `hashcode.String`) are fields of `Lib`; every
  general theorem holds for all of them.  `filepath.Base` is small and is written out
  (with `/` as the only path separator).
* `log.Printf` has no effect on the record, the remote calls or the returned error and is
  left out.
-/

namespace Pureport

/-! ## Values shared by the drivers -/

/-- How a call of a Go function ends. -/
inductive Ret where
  /-- it returned the `nil` error -/
  | nil
  /-- it returned a non-nil error with this message -/
  | error (msg : String)
  /-- it did not return: a run-time panic with this message -/
  | abort (msg : String)
deriving DecidableEq, Repr

/-- The value `client.Link`. -/
structure Link where
  Id : String
  Href : String
deriving DecidableEq, Repr

/-- What the drivers read of a `*http.Response`: the status code and
`resp.Header.Get("location")`, which is `""` when the header is absent. -/
structure Response where
  StatusCode : Int
  Location : String
deriving DecidableEq, Repr

/-- The Go `error` values the remote client returns: a `client.GenericSwaggerError`
carrying the body of the answer, or an error of any other dynamic type. -/
inductive ClientError where
  | GenericSwaggerError (body : String) (error : String)
  | other (error : String)
deriving DecidableEq, Repr

/-- The method `err.Error()`. -/
def ClientError.Error : ClientError → String
  | .GenericSwaggerError _ e => e
  | .other e => e

/-- The value `swagger.Network`.  Its declaration is not among the sources; `Account` is
taken to be a pointer to a link, as the links of the connection are. -/
structure Network where
  Name : String
  Description : String
  Account : Option Link
deriving DecidableEq, Repr

/-- The value `client.CustomerNetwork`, also one entry of the `customer_networks` field. -/
structure CustomerNetwork where
  Name : String
  Address : String
deriving DecidableEq, Repr

/-- The value `client.NatConfig`; its fields are not visible in the sources. -/
structure NatConfig where
  Enabled : Bool
deriving DecidableEq, Repr

/-- The value `client.GoogleCloudInterconnectConnection`; `Location` and `Network` are
pointers to links. -/
structure GoogleCloudInterconnectConnection where
  Type_ : String
  Name : String
  Description : String
  Speed : Int
  Location : Option Link
  Network : Option Link
  BillingTerm : String
  HighAvailability : Bool
  CustomerNetworks : List CustomerNetwork
  Nat : Option NatConfig
  PrimaryPairingKey : String
  SecondaryPairingKey : String
deriving DecidableEq, Repr

/-- The `interface{}` value returned by `GetConnection`: a Google Cloud connection or
a connection of another dynamic type (named by its type tag). -/
inductive Connection where
  | google (c : GoogleCloudInterconnectConnection)
  | otherType (tag : String)
deriving DecidableEq, Repr

/-- The value `client.Account`, with the fields the data source reads. -/
structure Account where
  Id : String
  Href : String
  Name : String
  Description : String
deriving DecidableEq, Repr

/-- A request to the remote API, as the drivers send them through `sess.Client`
(`UpdateNetwork` is the update operation of the networks API, which no driver calls). -/
inductive Call where
  | AddNetwork (accountId : String) (body : Network)
  | GetNetwork (networkId : String)
  | UpdateNetwork (networkId : String) (body : Network)
  | AddConnection (networkId : String) (body : GoogleCloudInterconnectConnection)
  | GetConnection (connectionId : String)
  | UpdateConnection (connectionId : String) (body : GoogleCloudInterconnectConnection)
  | FindAllAccounts
deriving DecidableEq, Repr

/-- The session `m`: the operations of `sess.Client` the drivers call.  Each takes the
requests issued before it and its arguments, and gives what the client returns; a
response pointer may be `nil` (`none`). -/
structure Session where
  AddNetwork : List Call → String → Network → Option Response × Option ClientError
  GetNetwork : List Call → String → Network × Option Response × Option ClientError
  AddConnection : List Call → String → GoogleCloudInterconnectConnection →
    Option Response × Option ClientError
  GetConnection : List Call → String → Connection × Option Response × Option ClientError
  UpdateConnection : List Call → String → GoogleCloudInterconnectConnection →
    Connection × Option Response × Option ClientError
  FindAllAccounts : List Call → List Account × Option Response × Option ClientError

/-! ## Library functions -/

/-- The value `*url.URL`, with the field the drivers read. -/
structure URL where
  Path : String
deriving DecidableEq, Repr

/-- A decoded JSON value, as `encoding/json` stores it in an `interface{}`. -/
inductive JsonValue where
  | null
  | bool (b : Bool)
  | float64 (literal : String)
  | string (s : String)
  | array
  | object
deriving DecidableEq, Repr

/-- A compiled regular expression, with the constructs the examples need: the empty
expression, a literal character, `.`, `^`, `$`, concatenation, alternation and `*`.
Other constructs of the pattern syntax are not modelled. -/
inductive Regexp where
  | empty
  | lit (c : Char)
  | anyChar
  | beginText
  | endText
  | seq (a b : Regexp)
  | alt (a b : Regexp)
  | star (a : Regexp)
deriving DecidableEq, Repr

/-- One round of the closure under `step`: the positions reachable from `acc` that are
not in `acc` yet are added, until none is new or the fuel is spent. -/
def starClosure (step : Nat → List Nat) : Nat → List Nat → List Nat
  | 0, acc => acc
  | fuel + 1, acc =>
    let next := ((acc.flatMap step).filter (fun j => !acc.contains j)).eraseDups
    if next = [] then acc else starClosure step fuel (acc ++ next)

/-- The positions of `s` at which a match of the expression that starts at position `i`
can end.  `.` does not match a newline; `^` and `$` match at the two ends of the text. -/
def Regexp.ends (s : List Char) : Regexp → Nat → List Nat
  | .empty, i => [i]
  | .lit c, i => if s.get? i = some c then [i + 1] else []
  | .anyChar, i =>
    match s.get? i with
    | some c => if c = '\n' then [] else [i + 1]
    | none => []
  | .beginText, i => if i = 0 then [i] else []
  | .endText, i => if i = s.length then [i] else []
  | .seq a b, i => ((Regexp.ends s a i).flatMap (fun j => Regexp.ends s b j)).eraseDups
  | .alt a b, i => (Regexp.ends s a i ++ Regexp.ends s b i).eraseDups
  | .star a, i => starClosure (fun j => Regexp.ends s a j) (s.length + 1) [i]

/-- The method `r.MatchString(s)`: whether `s` contains a match of `r`, starting and
ending anywhere. -/
def Regexp.MatchString (r : Regexp) (s : String) : Bool :=
  (List.range (s.data.length + 1)).any (fun i => !(Regexp.ends s.data r i).isEmpty)

/-- Whether the whole of `s` is a match of `r`. -/
def Regexp.matchesWhole (r : Regexp) (s : String) : Bool :=
  (Regexp.ends s.data r 0).contains s.data.length

/-- Library functions the drivers call. -/
structure Lib where
  /-- The function `url.Parse`. -/
  urlParse : String → Except String URL
  /-- The function `structure.ExpandJsonFromString`: the decoded object as the list of its
  members, or the decoding error. -/
  ExpandJsonFromString : String → Except String (List (String × JsonValue))
  /-- The function `regexp.MustCompile`; `none` when it panics. -/
  MustCompile : String → Option Regexp
  /-- The function `json.Marshal` on a slice of accounts. -/
  Marshal : List Account → Except String String
  /-- The function `hashcode.String`. -/
  hashcodeString : String → Int

/-- The function `filepath.Base` (with `/` the only separator and no volume names): the
last element of the path, after removing trailing slashes; `"."` for the empty path and
`"/"` for a path of slashes only. -/
def Base (path : String) : String :=
  if path.data = [] then "."
  else
    -- the path without its trailing slashes, read backwards
    let p := path.data.reverse.dropWhile (fun c => c == '/')
    -- the last element
    let e := (p.takeWhile (fun c => c != '/')).reverse
    if e = [] then "/" else String.mk e

/-! ## The record `*schema.ResourceData` -/

/-- The record `d` of one resource instance with schema `F`: its identifier, the values
`d.Get` returns (`cur`), the values of the stored state that `d.HasChange` compares them
with (`state`), and the bookkeeping of `d.Partial` / `d.SetPartial`. -/
structure ResourceData (F : Type) where
  id : String
  cur : F
  state : F
  partialMode : Bool
  partialKeys : List String
deriving DecidableEq, Repr

/-- The method `d.Id()`. -/
def ResourceData.Id {F : Type} (d : ResourceData F) : String := d.id

/-- The method `d.SetId(v)`. -/
def ResourceData.SetId {F : Type} (d : ResourceData F) (v : String) : ResourceData F :=
  { d with id := v }

/-- The method `d.Partial(enable)`. -/
def ResourceData.Partial {F : Type} (d : ResourceData F) (enable : Bool) : ResourceData F :=
  { d with partialMode := enable }

/-- The method `d.SetPartial(k)`. -/
def ResourceData.SetPartial {F : Type} (d : ResourceData F) (k : String) : ResourceData F :=
  { d with partialKeys := d.partialKeys ++ [k] }

/-- What an entry point leaves behind: the record, the requests issued so far and how
the call ended. -/
structure Result (F : Type) where
  d : ResourceData F
  trace : List Call
  ret : Ret
deriving DecidableEq, Repr

/-- The panic of dereferencing a nil pointer. -/
def nilDereference : String :=
  "runtime error: invalid memory address or nil pointer dereference"

/-! ## `resource_network.go` -/

/-- The schema of `resourceNetwork`. -/
structure NetworkFields where
  name : String
  description : String
  account_id : String
  account : List Link
deriving DecidableEq, Repr

/-- The function `resourceNetworkRead`. -/
def resourceNetworkRead (d : ResourceData NetworkFields) (m : Session) (t : List Call) :
    Result NetworkFields :=
  let networkId := d.Id
  let t1 := t ++ [Call.GetNetwork networkId]
  match m.GetNetwork t networkId with
  | (_, resp, some err) =>
    match resp with
    | none => ⟨d, t1, .abort nilDereference⟩
    | some resp =>
      let d := if resp.StatusCode = 404 then d.SetId "" else d
      ⟨d, t1, .error ("Error reading data for Network: " ++ err.Error)⟩
  | (n, resp, none) =>
    match resp with
    | none => ⟨d, t1, .abort nilDereference⟩
    | some resp =>
      if resp.StatusCode ≥ 300 then
        ⟨d, t1, .error ("Error Response while reading Network: code=" ++
          toString resp.StatusCode)⟩
      else
        match n.Account with
        | none => ⟨d, t1, .abort nilDereference⟩
        | some account =>
          -- `d.Set` is given values of the type of the field, so it returns no error
          let d := { d with cur := { d.cur with account_id := account.Id } }
          let d := { d with cur := { d.cur with name := n.Name } }
          let d := { d with cur := { d.cur with description := n.Description } }
          let d := { d with cur := { d.cur with account := [⟨account.Id, account.Href⟩] } }
          ⟨d, t1, .nil⟩

/-- The function `resourceNetworkCreate`. -/
def resourceNetworkCreate (lib : Lib) (d : ResourceData NetworkFields) (m : Session)
    (t : List Call) : Result NetworkFields :=
  let name := d.cur.name
  let description := d.cur.description
  let accountId := d.cur.account_id
  let network : Network := { Name := name, Description := description, Account := none }
  let t1 := t ++ [Call.AddNetwork accountId network]
  match m.AddNetwork t accountId network with
  | (_, some _) => ⟨d.SetId "", t1, .nil⟩
  | (resp, none) =>
    match resp with
    | none => ⟨d, t1, .abort nilDereference⟩
    | some resp =>
      if resp.StatusCode ≥ 300 then ⟨d.SetId "", t1, .nil⟩
      else
        let loc := resp.Location
        match lib.urlParse loc with
        | .error _ => ⟨d, t1, .nil⟩
        | .ok u =>
          let id := Base u.Path
          let d := d.SetId id
          if id = "" then ⟨d, t1, .nil⟩
          else resourceNetworkRead d m t1

/-- The function `resourceNetworkUpdate`. -/
def resourceNetworkUpdate (d : ResourceData NetworkFields) (m : Session) (t : List Call) :
    Result NetworkFields :=
  resourceNetworkRead d m t

/-! ## `resource_google_cloud_connection.go` -/

/-- The schema of `resourceGoogleCloudConnection`: the two pairing keys and the fields of
the base connection schema that the driver reads or writes. -/
structure GoogleFields where
  name : String
  description : String
  speed : Int
  billing_term : String
  location_href : String
  network : List Link
  high_availability : Bool
  customer_networks : List CustomerNetwork
  nat_config : Option NatConfig
  primary_pairing_key : String
  secondary_pairing_key : String
deriving DecidableEq, Repr

/-- The constant `googleConnectionName`. -/
def googleConnectionName : String := "Google Cloud Connection"

/-- The conversion `int32(x)` of a Go `int`: the value wraps around modulo `2^32`. -/
def int32 (x : Int) : Int := (x + 2 ^ 31) % 2 ^ 32 - 2 ^ 31

/-- Modelled from the spec: `ExpandCustomerNetworks` is not among the sources; the
customer network list of the record is carried over entry by entry, in order. -/
def ExpandCustomerNetworks (d : ResourceData GoogleFields) : List CustomerNetwork :=
  d.cur.customer_networks.map (fun cn => { Name := cn.Name, Address := cn.Address })

/-- Modelled from the spec: `ExpandNATConfiguration` is not among the sources; the NAT
configuration is expanded only when present. -/
def ExpandNATConfiguration (d : ResourceData GoogleFields) : Option NatConfig :=
  d.cur.nat_config

/-- The function `expandGoogleCloudConnection`; indexing an empty `network` list
panics. -/
def expandGoogleCloudConnection (d : ResourceData GoogleFields) :
    Except String GoogleCloudInterconnectConnection :=
  let network := d.cur.network
  let speed := d.cur.speed
  let name := d.cur.name
  let billingTerm := d.cur.billing_term
  let location_href := d.cur.location_href
  let primaryPairingKey := d.cur.primary_pairing_key
  match network with
  | [] => .error "runtime error: index out of range"
  | n0 :: _ =>
    let c : GoogleCloudInterconnectConnection :=
      { Type_ := "GOOGLE_CLOUD_INTERCONNECT"
        Name := name
        Speed := int32 speed
        Location := some { Id := "", Href := location_href }
        Network := some { Id := n0.Id, Href := n0.Href }
        BillingTerm := billingTerm
        PrimaryPairingKey := primaryPairingKey
        Description := ""
        HighAvailability := false
        CustomerNetworks := []
        Nat := none
        SecondaryPairingKey := "" }
    let c := { c with CustomerNetworks := ExpandCustomerNetworks d }
    let c := { c with Nat := ExpandNATConfiguration d }
    -- `d.GetOk` reports a field as set when its value is not the zero value
    let c := if d.cur.description ≠ "" then { c with Description := d.cur.description } else c
    let c := if d.cur.high_availability ≠ false then
      { c with HighAvailability := d.cur.high_availability } else c
    let c := if d.cur.secondary_pairing_key ≠ "" then
      { c with SecondaryPairingKey := d.cur.secondary_pairing_key } else c
    .ok c

/-- The panic of a failed type assertion. -/
def interfaceConversion : String := "interface conversion"

/-- The function `resourceGoogleCloudConnectionRead`. -/
def resourceGoogleCloudConnectionRead (d : ResourceData GoogleFields) (m : Session)
    (t : List Call) : Result GoogleFields :=
  let connectionId := d.Id
  let t1 := t ++ [Call.GetConnection connectionId]
  match m.GetConnection t connectionId with
  | (_, resp, some err) =>
    match resp with
    | none => ⟨d, t1, .abort nilDereference⟩
    | some resp =>
      let d := if resp.StatusCode = 404 then d.SetId "" else d
      ⟨d, t1, .error ("Error reading data for " ++ googleConnectionName ++ ": " ++ err.Error)⟩
  | (c, resp, none) =>
    match resp with
    | none => ⟨d, t1, .abort nilDereference⟩
    | some resp =>
      if resp.StatusCode ≥ 300 then
        ⟨d, t1, .error ("Error Response while reading " ++ googleConnectionName ++ ": code=" ++
          toString resp.StatusCode)⟩
      else
        match c with
        | .otherType _ => ⟨d, t1, .abort interfaceConversion⟩
        | .google conn =>
          -- `d.Set` is given values of the type of the field, so it returns no error
          let d := { d with cur := { d.cur with speed := conn.Speed } }
          let customerNetworks : List CustomerNetwork :=
            conn.CustomerNetworks.map (fun cn => { Name := cn.Name, Address := cn.Address })
          let d := { d with cur := { d.cur with customer_networks := customerNetworks } }
          let d := { d with cur := { d.cur with description := conn.Description } }
          let d := { d with cur := { d.cur with high_availability := conn.HighAvailability } }
          match conn.Location with
          | none => ⟨d, t1, .abort nilDereference⟩
          | some location =>
            let d := { d with cur := { d.cur with location_href := location.Href } }
            match conn.Network with
            | none => ⟨d, t1, .abort nilDereference⟩
            | some network =>
              let d := { d with cur := { d.cur with network := [⟨network.Id, network.Href⟩] } }
              let d := { d with cur :=
                { d.cur with primary_pairing_key := conn.PrimaryPairingKey } }
              let d := { d with cur :=
                { d.cur with secondary_pairing_key := conn.SecondaryPairingKey } }
              ⟨d, t1, .nil⟩

/-- The function `resourceGoogleCloudConnectionCreate`. -/
def resourceGoogleCloudConnectionCreate (lib : Lib) (d : ResourceData GoogleFields)
    (m : Session) (t : List Call) : Result GoogleFields :=
  match expandGoogleCloudConnection d with
  | .error p => ⟨d, t, .abort p⟩
  | .ok connection =>
    match connection.Network with
    | none => ⟨d, t, .abort nilDereference⟩
    | some network =>
      let t1 := t ++ [Call.AddConnection network.Id connection]
      match m.AddConnection t network.Id connection with
      | (_, some err) =>
        match err with
        | .other _ => ⟨d, t1, .abort interfaceConversion⟩
        | .GenericSwaggerError body _ =>
          let json_response := body
          match lib.ExpandJsonFromString json_response with
          | .error _ => ⟨d.SetId "", t1, .nil⟩
          | .ok response =>
            match response.lookup "status" with
            | some (.float64 _) => ⟨d.SetId "", t1, .nil⟩
            | _ => ⟨d, t1, .abort interfaceConversion⟩
      | (resp, none) =>
        match resp with
        | none => ⟨d, t1, .abort nilDereference⟩
        | some resp =>
          if resp.StatusCode ≥ 300 then ⟨d.SetId "", t1, .nil⟩
          else
            let loc := resp.Location
            match lib.urlParse loc with
            | .error _ => ⟨d, t1, .nil⟩
            | .ok u =>
              let id := Base u.Path
              let d := d.SetId id
              if id = "" then ⟨d, t1, .nil⟩
              else resourceGoogleCloudConnectionRead d m t1

/-- The field-by-field block of `resourceGoogleCloudConnectionUpdate` (the six
`d.HasChange` tests): the request body and the record after it.  `d.HasChange(k)`
compares the stored state with the current value. -/
def updateChanges (d : ResourceData GoogleFields) (c : GoogleCloudInterconnectConnection) :
    GoogleCloudInterconnectConnection × ResourceData GoogleFields :=
  let (c, d) := if d.state.name ≠ d.cur.name then
    ({ c with Name := d.cur.name }, d.SetPartial "name") else (c, d)
  let (c, d) := if d.state.description ≠ d.cur.description then
    ({ c with Description := d.cur.description }, d.SetPartial "description") else (c, d)
  let (c, d) := if d.state.speed ≠ d.cur.speed then
    ({ c with Speed := int32 d.cur.speed }, d.SetPartial "speed") else (c, d)
  let c := if d.state.customer_networks ≠ d.cur.customer_networks then
    { c with CustomerNetworks := ExpandCustomerNetworks d } else c
  let c := if d.state.nat_config ≠ d.cur.nat_config then
    { c with Nat := ExpandNATConfiguration d } else c
  let c := if d.state.billing_term ≠ d.cur.billing_term then
    { c with BillingTerm := d.cur.billing_term } else c
  (c, d)

/-- The function `resourceGoogleCloudConnectionUpdate`. -/
def resourceGoogleCloudConnectionUpdate (lib : Lib) (d : ResourceData GoogleFields)
    (m : Session) (t : List Call) : Result GoogleFields :=
  match expandGoogleCloudConnection d with
  | .error p => ⟨d, t, .abort p⟩
  | .ok c =>
    let d := d.Partial true
    let (c, d) := updateChanges d c
    let t1 := t ++ [Call.UpdateConnection d.Id c]
    match m.UpdateConnection t d.Id c with
    | (_, _, some err) =>
      match err with
      | .other _ => ⟨d, t1, .abort interfaceConversion⟩
      | .GenericSwaggerError body _ =>
        let json_response := body
        -- the error of the decoding shadows the error of the call
        match lib.ExpandJsonFromString json_response with
        | .error e =>
          ⟨d, t1, .error ("Error while updating " ++ googleConnectionName ++ ": err=" ++ e)⟩
        | .ok response =>
          match response.lookup "status" with
          | some (.float64 _) =>
            ⟨d, t1, .error ("Error while updating " ++ googleConnectionName ++
              ": err=%!s(<nil>)")⟩
          | _ => ⟨d, t1, .abort interfaceConversion⟩
    | (_, resp, none) =>
      match resp with
      | none => ⟨d, t1, .abort nilDereference⟩
      | some resp =>
        if resp.StatusCode ≥ 300 then
          ⟨d, t1, .error ("Error Response while updating " ++ googleConnectionName ++
            ": code=" ++ toString resp.StatusCode)⟩
        else
          let d := d.Partial false
          resourceGoogleCloudConnectionRead d m t1

/-! ## `data_source_accounts.go` -/

/-- One entry of the `accounts` field, as `flattenAccounts` builds it. -/
structure AccountEntry where
  id : String
  href : String
  name : String
  description : String
deriving DecidableEq, Repr

/-- The schema of `dataSourceAccounts`; `name_regex` is `""` when no pattern is
configured, which is what `d.GetOk` reports as not set. -/
structure AccountsFields where
  name_regex : String
  accounts : List AccountEntry
deriving DecidableEq, Repr

/-- The function `flattenAccounts`. -/
def flattenAccounts (accounts : List Account) : List AccountEntry :=
  accounts.map (fun account =>
    { id := account.Id, href := account.Href, name := account.Name,
      description := account.Description })

/-- The order of two accounts by identifier.  Go compares strings byte by byte, which
for UTF-8 text is the lexicographic order of the characters. -/
def idLE (a b : Account) : Prop := a.Id.data ≤ b.Id.data

instance : DecidableRel idLE := fun a b => inferInstanceAs (Decidable (a.Id.data ≤ b.Id.data))

/-- The call `sort.Slice(xs, less)` with `less` comparing the identifiers: the slice is
put in ascending order of identifier.  (The order Go gives to entries with equal
identifiers is not specified; here they keep their order.) -/
def sortSlice (xs : List Account) : List Account :=
  xs.insertionSort idLE

/-- The function `dataSourceAccountsRead`. -/
def dataSourceAccountsRead (lib : Lib) (d : ResourceData AccountsFields) (m : Session)
    (t : List Call) : Result AccountsFields :=
  let nameRegex := d.cur.name_regex
  let nameRegexOk : Bool := nameRegex ≠ ""
  let t1 := t ++ [Call.FindAllAccounts]
  match m.FindAllAccounts t with
  | (_, _, some _) => ⟨d.SetId "", t1, .nil⟩
  | (accounts, resp, none) =>
    match resp with
    | none => ⟨d, t1, .abort nilDereference⟩
    | some resp =>
      if resp.StatusCode ≥ 300 then ⟨d.SetId "", t1, .nil⟩
      else
        -- the two slices after filtering and sorting
        let slices : Option (List Account × List Account) :=
          if nameRegexOk then
            match lib.MustCompile nameRegex with
            | none => none
            | some r =>
              -- `append` builds a new slice: sorting it leaves `accounts` as fetched
              let filteredAccounts := accounts.filter (fun account => r.MatchString account.Name)
              some (sortSlice filteredAccounts, accounts)
          else
            -- `filteredAccounts = accounts` shares the array of `accounts`:
            -- `sort.Slice` sorts it in place, so `accounts` is reordered as well
            some (sortSlice accounts, sortSlice accounts)
        match slices with
        | none => ⟨d, t1, .abort "regexp: Compile: error parsing regexp"⟩
        | some (filteredAccounts, accounts) =>
          -- `d.Set` is given a value of the type of the field, so it returns no error
          let out := flattenAccounts filteredAccounts
          let d := { d with cur := { d.cur with accounts := out } }
          match lib.Marshal accounts with
          | .error err => ⟨d, t1, .error ("Error generating Id: " ++ err)⟩
          | .ok data =>
            let d := d.SetId (toString (lib.hashcodeString data))
            ⟨d, t1, .nil⟩

/-! ## Concrete inputs used in the examples -/

/-- A stand-in for `url.Parse` in the examples.  It agrees with `url.Parse` on the
locations used there: a string of letters, digits, `/`, `.`, `-` and `_` that does not
start with `//` is a path and parses to itself, and `%zz` (a malformed escape) is
rejected.  Other strings are left outside the sample. -/
def sampleUrlParse (loc : String) : Except String URL :=
  if loc = "%zz" then .error "invalid URL escape"
  else if loc.data.all (fun c => c.isAlphanum || c == '/' || c == '.' || c == '-' || c == '_')
      && !(loc.data.take 2 == ['/', '/']) then .ok { Path := loc }
  else .error "outside the sample"

/-- The structured error body of the duplicate-name scenario: an object with the
members `status` 409, `code` DUPLICATE and `message` exists. -/
def duplicateBody : String :=
  "\x7b\"status\":409,\"code\":\"DUPLICATE\",\"message\":\"exists\"\x7d"

/-- A stand-in for `structure.ExpandJsonFromString` in the examples, defined on three
bodies: the duplicate-name error, the empty object, and a text that is not JSON. -/
def sampleExpandJson (body : String) : Except String (List (String × JsonValue)) :=
  if body = duplicateBody then
    .ok [("status", .float64 "409"), ("code", .string "DUPLICATE"), ("message", .string "exists")]
  else if body = "\x7b\x7d" then .ok []
  else .error "invalid character"

/-- The expression that matches the four letters `prod`. -/
def prodLiteral : Regexp :=
  .seq (.lit 'p') (.seq (.lit 'r') (.seq (.lit 'o') (.lit 'd')))

/-- A stand-in for `regexp.MustCompile` in the examples, defined on the patterns
`prod` and `^prod-.*$`. -/
def sampleMustCompile (pattern : String) : Option Regexp :=
  if pattern = "prod" then some prodLiteral
  else if pattern = "^prod-.*$" then
    some (.seq .beginText (.seq prodLiteral (.seq (.lit '-') (.seq (.star .anyChar) .endText))))
  else none

/-- A stand-in for `json.Marshal` in the examples: the identifiers and names in the order
of the slice. -/
def sampleMarshal (accounts : List Account) : Except String String :=
  .ok (String.intercalate "," (accounts.map (fun a => a.Id ++ ":" ++ a.Name)))

/-- A stand-in for `hashcode.String` in the examples. -/
def sampleHashcode (data : String) : Int :=
  Int.ofNat (data.data.foldl (fun h c => (h * 31 + c.toNat) % 2 ^ 32) 0)

/-- The library functions of the examples. -/
def sampleLib : Lib :=
  { urlParse := sampleUrlParse
    ExpandJsonFromString := sampleExpandJson
    MustCompile := sampleMustCompile
    Marshal := sampleMarshal
    hashcodeString := sampleHashcode }

/-- A remote network and a remote connection of the examples. -/
def remoteNetwork : Network :=
  { Name := "net-remote", Description := "remote", Account := some ⟨"ac-1", "/accounts/ac-1"⟩ }

/-- The remote Google Cloud connection of the examples. -/
def remoteConnection : GoogleCloudInterconnectConnection :=
  { Type_ := "GOOGLE_CLOUD_INTERCONNECT", Name := "conn-remote", Description := "remote",
    Speed := 100, Location := some ⟨"loc-1", "/locations/loc-1"⟩,
    Network := some ⟨"net-9", "/networks/net-9"⟩, BillingTerm := "HOURLY",
    HighAvailability := true, CustomerNetworks := [], Nat := none,
    PrimaryPairingKey := "key-1", SecondaryPairingKey := "" }

/-- The answer of the client when the remote API is down: an error that is not a
`GenericSwaggerError`, and no response. -/
def downSession : Session :=
  { AddNetwork := fun _ _ _ => (none, some (.other "connection refused"))
    GetNetwork := fun _ _ => (⟨"", "", none⟩, none, some (.other "connection refused"))
    AddConnection := fun _ _ _ => (none, some (.other "connection refused"))
    GetConnection := fun _ _ => (.otherType "", none, some (.other "connection refused"))
    UpdateConnection := fun _ _ _ => (.otherType "", none, some (.other "connection refused"))
    FindAllAccounts := fun _ => ([], none, some (.other "connection refused")) }

/-- A remote API that answers every get with 404 and an error. -/
def notFoundSession : Session :=
  { downSession with
    GetNetwork := fun _ _ =>
      (⟨"", "", none⟩, some ⟨404, ""⟩, some (.GenericSwaggerError "" "404 Not Found"))
    GetConnection := fun _ _ =>
      (.otherType "", some ⟨404, ""⟩, some (.GenericSwaggerError "" "404 Not Found")) }

/-- A remote API that rejects every add and update with status 409 and the structured
error body `duplicateBody`. -/
def conflictSession : Session :=
  { downSession with
    AddNetwork := fun _ _ _ =>
      (some ⟨409, ""⟩, some (.GenericSwaggerError duplicateBody "409 Conflict"))
    AddConnection := fun _ _ _ =>
      (some ⟨409, ""⟩, some (.GenericSwaggerError duplicateBody "409 Conflict"))
    UpdateConnection := fun _ _ _ =>
      (.otherType "", some ⟨409, ""⟩, some (.GenericSwaggerError duplicateBody "409 Conflict")) }

/-- A remote API that answers every add and update with status 409 but no error value. -/
def statusOnlySession : Session :=
  { downSession with
    AddNetwork := fun _ _ _ => (some ⟨409, ""⟩, none)
    AddConnection := fun _ _ _ => (some ⟨409, ""⟩, none)
    UpdateConnection := fun _ _ _ => (.otherType "", some ⟨409, ""⟩, none) }

/-- A remote API that accepts every add with status 201 and the given location, and
answers every get and update with status 200 and the remote objects of the examples. -/
def acceptingSession (location : String) : Session :=
  { downSession with
    AddNetwork := fun _ _ _ => (some ⟨201, location⟩, none)
    GetNetwork := fun _ _ => (remoteNetwork, some ⟨200, ""⟩, none)
    AddConnection := fun _ _ _ => (some ⟨201, location⟩, none)
    GetConnection := fun _ _ => (.google remoteConnection, some ⟨200, ""⟩, none)
    UpdateConnection := fun _ _ _ => (.google remoteConnection, some ⟨200, ""⟩, none) }

/-- A remote API whose add and update fail with an error whose body is the empty JSON
object. -/
def emptyBodySession : Session :=
  { downSession with
    AddConnection := fun _ _ _ =>
      (some ⟨500, ""⟩, some (.GenericSwaggerError "\x7b\x7d" "500 Internal Server Error"))
    UpdateConnection := fun _ _ _ =>
      (.otherType "", some ⟨500, ""⟩,
        some (.GenericSwaggerError "\x7b\x7d" "500 Internal Server Error")) }

/-- The fields of the network record of the examples. -/
def networkFields : NetworkFields :=
  { name := "net-new", description := "new", account_id := "ac-1", account := [] }

/-- A network record that was never created. -/
def newNetwork : ResourceData NetworkFields :=
  { id := "", cur := networkFields, state := networkFields, partialMode := false,
    partialKeys := [] }

/-- A network record with identifier `x1` whose name and description were changed since
they were last fetched. -/
def changedNetwork : ResourceData NetworkFields :=
  { id := "x1", cur := networkFields,
    state := { networkFields with name := "net-remote", description := "remote" },
    partialMode := false, partialKeys := [] }

/-- The fields of the connection record of the examples. -/
def googleFields : GoogleFields :=
  { name := "conn-new", description := "new", speed := 50, billing_term := "HOURLY",
    location_href := "/locations/loc-1", network := [⟨"net-9", "/networks/net-9"⟩],
    high_availability := false, customer_networks := [], nat_config := none,
    primary_pairing_key := "key-1", secondary_pairing_key := "" }

/-- A connection record that was never created. -/
def newConnection : ResourceData GoogleFields :=
  { id := "", cur := googleFields, state := googleFields, partialMode := false,
    partialKeys := [] }

/-- A connection record with identifier `x1`. -/
def knownConnection : ResourceData GoogleFields :=
  { newConnection with id := "x1" }

/-- The request body built from the connection record of the examples. -/
def googleBody : GoogleCloudInterconnectConnection :=
  { Type_ := "GOOGLE_CLOUD_INTERCONNECT", Name := "conn-new", Description := "new",
    Speed := 50, Location := some ⟨"", "/locations/loc-1"⟩,
    Network := some ⟨"net-9", "/networks/net-9"⟩, BillingTerm := "HOURLY",
    HighAvailability := false, CustomerNetworks := [], Nat := none,
    PrimaryPairingKey := "key-1", SecondaryPairingKey := "" }

/-- The accounts of the examples. -/
def acctProdB : Account := ⟨"ac-4", "/accounts/ac-4", "prod-b", ""⟩

/-- An account whose name is not a production name. -/
def acctDevA : Account := ⟨"ac-3", "/accounts/ac-3", "dev-a", ""⟩

/-- An account whose name is a production name. -/
def acctProdA : Account := ⟨"ac-2", "/accounts/ac-2", "prod-a", ""⟩

/-- An account whose name contains `prod` in the middle. -/
def acctMyProd : Account := ⟨"ac-1", "/accounts/ac-1", "my-prod-x", ""⟩

/-- The collection of the examples, in the order the API returns it (not sorted). -/
def fetchedAccounts : List Account := [acctProdB, acctDevA, acctProdA, acctMyProd]

/-- A remote API that answers the account listing with status 200 and
`fetchedAccounts`. -/
def accountsSession : Session :=
  { downSession with FindAllAccounts := fun _ => (fetchedAccounts, some ⟨200, ""⟩, none) }

/-- The record of the accounts data source with the given pattern (`""` for none). -/
def accountsData (pattern : String) : ResourceData AccountsFields :=
  { id := "", cur := ⟨pattern, []⟩, state := ⟨pattern, []⟩, partialMode := false,
    partialKeys := [] }

instance : IsTotal Account idLE := ⟨fun a b => le_total a.Id.data b.Id.data⟩

instance : IsTrans Account idLE := ⟨fun _ _ _ h1 h2 => le_trans h1 h2⟩

/-! ## `filepath.Base` -/

theorem takeWhile_append_stop {α : Type} (p : α → Bool) (l : List α) (a : α) (r : List α)
    (hl : ∀ x ∈ l, p x = true) (ha : p a = false) :
    (l ++ a :: r).takeWhile p = l := by
  induction l with
  | nil => simp [List.takeWhile, ha]
  | cons x xs ih =>
    have hx : p x = true := hl x (List.mem_cons_self x xs)
    have hxs : ∀ y ∈ xs, p y = true := fun y hy => hl y (List.mem_cons_of_mem x hy)
    simp [List.takeWhile, hx, ih hxs]

/-- `filepath.Base` never returns the empty string. -/
theorem Base_ne_empty (path : String) : Base path ≠ "" := by
  unfold Base
  split
  · decide
  · simp only
    split
    · decide
    · rename_i h
      intro hmk
      exact h (congrArg String.data hmk)

/-- `filepath.Base` of a path that ends in `/s`, for a non-empty `s` without a slash,
is `s`. -/
theorem Base_final_segment (pre s : String) (hs : s ≠ "") (hslash : '/' ∉ s.data) :
    Base (pre ++ "/" ++ s) = s := by
  have hsd : s.data ≠ [] := fun h => hs (String.ext h)
  have hdata : (pre ++ "/" ++ s).data = pre.data ++ '/' :: s.data := by
    simp [String.data_append]
  have hrev : (pre.data ++ '/' :: s.data).reverse = s.data.reverse ++ '/' :: pre.data.reverse := by
    simp
  have hno : ∀ x ∈ s.data.reverse, (x != '/') = true := by
    intro x hx
    have hx' : x ∈ s.data := List.mem_reverse.mp hx
    simp only [bne_iff_ne, ne_eq]
    intro h
    exact hslash (h ▸ hx')
  have hdrop : (s.data.reverse ++ '/' :: pre.data.reverse).dropWhile (fun c => c == '/')
      = s.data.reverse ++ '/' :: pre.data.reverse := by
    cases hr : s.data.reverse with
    | nil => exact absurd (List.reverse_eq_nil_iff.mp hr) hsd
    | cons x xs =>
      have hx : (x != '/') = true := hno x (by rw [hr]; exact List.mem_cons_self x xs)
      have hx' : (x == '/') = false := by simpa [bne] using hx
      simp [List.dropWhile, hx']
  have htake : (s.data.reverse ++ '/' :: pre.data.reverse).takeWhile (fun c => c != '/')
      = s.data.reverse :=
    takeWhile_append_stop _ _ _ _ hno (by simp)
  unfold Base
  rw [hdata]
  have hne : ¬ (pre.data ++ '/' :: s.data = []) := by simp
  rw [if_neg hne]
  simp only [hrev, hdrop, htake, List.reverse_reverse]
  rw [if_neg hsd]

/-! ## Read when the remote object is gone -/

/-- C1 (what the code does): when the get call answers with status code 404 together
with an error value, both `resourceNetworkRead` and `resourceGoogleCloudConnectionRead`
clear the identifier and then return an error built from the error of the call: the
error is not absorbed. -/
theorem read_status_404_returns_error (m : Session) (t : List Call)
    (dn : ResourceData NetworkFields) (dc : ResourceData GoogleFields)
    (n : Network) (c : Connection) (rn rc : Response) (en ec : ClientError)
    (hn : m.GetNetwork t dn.Id = (n, some rn, some en)) (hrn : rn.StatusCode = 404)
    (hc : m.GetConnection t dc.Id = (c, some rc, some ec)) (hrc : rc.StatusCode = 404) :
    resourceNetworkRead dn m t
        = ⟨dn.SetId "", t ++ [Call.GetNetwork dn.Id],
            .error ("Error reading data for Network: " ++ en.Error)⟩ ∧
      resourceGoogleCloudConnectionRead dc m t
        = ⟨dc.SetId "", t ++ [Call.GetConnection dc.Id],
            .error ("Error reading data for Google Cloud Connection: " ++ ec.Error)⟩ := by
  constructor
  · simp [resourceNetworkRead, hn, hrn]
  · simp [resourceGoogleCloudConnectionRead, hc, hrc, googleConnectionName]

/-- C1 at the record with identifier `x1`: Read returns an error, with the identifier
cleared. -/
theorem read_status_404_returns_error_witness :
    resourceNetworkRead changedNetwork notFoundSession []
        = ⟨changedNetwork.SetId "", [Call.GetNetwork "x1"],
            .error "Error reading data for Network: 404 Not Found"⟩ ∧
      resourceGoogleCloudConnectionRead knownConnection notFoundSession []
        = ⟨knownConnection.SetId "", [Call.GetConnection "x1"],
            .error "Error reading data for Google Cloud Connection: 404 Not Found"⟩ :=
  read_status_404_returns_error notFoundSession [] changedNetwork knownConnection
    ⟨"", "", none⟩ (.otherType "") ⟨404, ""⟩ ⟨404, ""⟩
    (.GenericSwaggerError "" "404 Not Found") (.GenericSwaggerError "" "404 Not Found")
    rfl rfl rfl rfl

/-- When the get call answers with status code 404 and no error value, both Reads
return an error and leave the record, identifier included, as it was. -/
theorem read_status_404_without_error (m : Session) (t : List Call)
    (dn : ResourceData NetworkFields) (dc : ResourceData GoogleFields)
    (n : Network) (c : Connection) (rn rc : Response)
    (hn : m.GetNetwork t dn.Id = (n, some rn, none)) (hrn : rn.StatusCode = 404)
    (hc : m.GetConnection t dc.Id = (c, some rc, none)) (hrc : rc.StatusCode = 404) :
    resourceNetworkRead dn m t
        = ⟨dn, t ++ [Call.GetNetwork dn.Id],
            .error "Error Response while reading Network: code=404"⟩ ∧
      resourceGoogleCloudConnectionRead dc m t
        = ⟨dc, t ++ [Call.GetConnection dc.Id],
            .error "Error Response while reading Google Cloud Connection: code=404"⟩ := by
  constructor
  · simp [resourceNetworkRead, hn, hrn]
    decide
  · simp [resourceGoogleCloudConnectionRead, hc, hrc, googleConnectionName]
    decide

/-! ## Create when the add call fails -/

/-- The network link of the request body is built from the first entry of the `network`
field of the record. -/
theorem expand_network_link (d : ResourceData GoogleFields)
    (c : GoogleCloudInterconnectConnection) (n0 : Link) (rest : List Link)
    (hexp : expandGoogleCloudConnection d = .ok c) (hnet : d.cur.network = n0 :: rest) :
    c.Network = some ⟨n0.Id, n0.Href⟩ := by
  unfold expandGoogleCloudConnection at hexp
  simp only [hnet] at hexp
  injection hexp with hexp
  subst hexp
  split_ifs <;> rfl

/-- C2: when the add call fails, with an error value (for the connection: a
`GenericSwaggerError` whose body decodes to an object with a numeric `status`) or with a
status code of 300 or more, Create returns `nil`, the identifier is empty afterwards, and
the add call is the only request made (no get). -/
theorem create_failure_absorbed (lib : Lib) (m : Session) (t : List Call)
    (dn : ResourceData NetworkFields) (dc : ResourceData GoogleFields)
    (body : Network) (c : GoogleCloudInterconnectConnection) (n0 : Link) (rest : List Link)
    (hbody : body = { Name := dn.cur.name, Description := dn.cur.description, Account := none })
    (hexp : expandGoogleCloudConnection dc = .ok c) (hnet : dc.cur.network = n0 :: rest) :
    (∀ resp err, m.AddNetwork t dn.cur.account_id body = (resp, some err) →
        resourceNetworkCreate lib dn m t
          = ⟨dn.SetId "", t ++ [.AddNetwork dn.cur.account_id body], .nil⟩) ∧
    (∀ resp, m.AddNetwork t dn.cur.account_id body = (some resp, none) →
        resp.StatusCode ≥ 300 →
        resourceNetworkCreate lib dn m t
          = ⟨dn.SetId "", t ++ [.AddNetwork dn.cur.account_id body], .nil⟩) ∧
    (∀ resp text msg obj num,
        m.AddConnection t n0.Id c = (resp, some (.GenericSwaggerError text msg)) →
        lib.ExpandJsonFromString text = .ok obj →
        obj.lookup "status" = some (.float64 num) →
        resourceGoogleCloudConnectionCreate lib dc m t
          = ⟨dc.SetId "", t ++ [.AddConnection n0.Id c], .nil⟩) ∧
    (∀ resp, m.AddConnection t n0.Id c = (some resp, none) →
        resp.StatusCode ≥ 300 →
        resourceGoogleCloudConnectionCreate lib dc m t
          = ⟨dc.SetId "", t ++ [.AddConnection n0.Id c], .nil⟩) ∧
    (dn.SetId "").Id = "" ∧ (dc.SetId "").Id = "" := by
  have hnw := expand_network_link dc c n0 rest hexp hnet
  subst hbody
  refine ⟨?_, ?_, ?_, ?_, rfl, rfl⟩
  · intro resp err h
    simp [resourceNetworkCreate, h]
  · intro resp h hs
    simp [resourceNetworkCreate, h, hs]
  · intro resp text msg obj num h hj hst
    simp [resourceGoogleCloudConnectionCreate, hexp, hnw, h, hj, hst]
  · intro resp h hs
    simp [resourceGoogleCloudConnectionCreate, hexp, hnw, h, hs]

/-- C2 at the duplicate-name scenario (status 409 with the structured error body) and at
a bare status 409: Create returns `nil` with an empty identifier and no get. -/
theorem create_failure_absorbed_witness :
    resourceNetworkCreate sampleLib newNetwork conflictSession []
        = ⟨newNetwork.SetId "", [.AddNetwork "ac-1" ⟨"net-new", "new", none⟩], .nil⟩ ∧
      resourceGoogleCloudConnectionCreate sampleLib newConnection conflictSession []
        = ⟨newConnection.SetId "", [.AddConnection "net-9" googleBody], .nil⟩ ∧
      resourceNetworkCreate sampleLib newNetwork statusOnlySession []
        = ⟨newNetwork.SetId "", [.AddNetwork "ac-1" ⟨"net-new", "new", none⟩], .nil⟩ ∧
      resourceGoogleCloudConnectionCreate sampleLib newConnection statusOnlySession []
        = ⟨newConnection.SetId "", [.AddConnection "net-9" googleBody], .nil⟩ :=
  have h1 := create_failure_absorbed sampleLib conflictSession [] newNetwork newConnection
    ⟨"net-new", "new", none⟩ googleBody ⟨"net-9", "/networks/net-9"⟩ [] rfl rfl rfl
  have h2 := create_failure_absorbed sampleLib statusOnlySession [] newNetwork newConnection
    ⟨"net-new", "new", none⟩ googleBody ⟨"net-9", "/networks/net-9"⟩ [] rfl rfl rfl
  ⟨h1.1 _ _ rfl, h1.2.2.1 _ _ _ _ "409" rfl rfl rfl, h2.2.1 ⟨409, ""⟩ rfl (by decide),
    h2.2.2.2.1 ⟨409, ""⟩ rfl (by decide)⟩

/-! ## Create when the add call succeeds -/

/-- `resourceNetworkRead` makes exactly one request, the get by the identifier, however
it ends. -/
theorem resourceNetworkRead_trace (d : ResourceData NetworkFields) (m : Session)
    (t : List Call) : (resourceNetworkRead d m t).trace = t ++ [Call.GetNetwork d.Id] := by
  simp only [resourceNetworkRead]
  generalize m.GetNetwork t d.Id = g
  rcases g with ⟨⟨name, description, account⟩, resp, err⟩
  cases err <;> cases resp <;> simp only []
  split_ifs
  · rfl
  · cases account <;> rfl

/-- `resourceGoogleCloudConnectionRead` makes exactly one request, the get by the
identifier, however it ends. -/
theorem resourceGoogleCloudConnectionRead_trace (d : ResourceData GoogleFields)
    (m : Session) (t : List Call) :
    (resourceGoogleCloudConnectionRead d m t).trace = t ++ [Call.GetConnection d.Id] := by
  simp only [resourceGoogleCloudConnectionRead]
  generalize m.GetConnection t d.Id = g
  rcases g with ⟨c, resp, err⟩
  cases err <;> cases resp <;> simp only []
  split_ifs
  · rfl
  · cases c with
    | otherType tag => rfl
    | google conn =>
      simp only []
      cases conn.Location <;> simp only []
      cases conn.Network <;> rfl

/-- C3: when the add call returns no error and a status code below 300, and the path of
the parsed location ends in `/s` for a non-empty `s` without a slash, Create sets the
identifier to `s` and its result is the result of Read on the record with identifier `s`;
the requests made are the add and then the get by `s`. -/
theorem create_success_reads_final_segment (lib : Lib) (m : Session) (t : List Call)
    (dn : ResourceData NetworkFields) (dc : ResourceData GoogleFields)
    (body : Network) (c : GoogleCloudInterconnectConnection) (n0 : Link) (rest : List Link)
    (pre s : String)
    (hbody : body = { Name := dn.cur.name, Description := dn.cur.description, Account := none })
    (hexp : expandGoogleCloudConnection dc = .ok c) (hnet : dc.cur.network = n0 :: rest)
    (hs : s ≠ "") (hslash : '/' ∉ s.data) :
    (∀ resp u, m.AddNetwork t dn.cur.account_id body = (some resp, none) →
        resp.StatusCode < 300 → lib.urlParse resp.Location = .ok u →
        u.Path = pre ++ "/" ++ s →
        resourceNetworkCreate lib dn m t
            = resourceNetworkRead (dn.SetId s) m (t ++ [.AddNetwork dn.cur.account_id body]) ∧
          (resourceNetworkCreate lib dn m t).trace
            = t ++ [.AddNetwork dn.cur.account_id body, .GetNetwork s]) ∧
    (∀ resp u, m.AddConnection t n0.Id c = (some resp, none) →
        resp.StatusCode < 300 → lib.urlParse resp.Location = .ok u →
        u.Path = pre ++ "/" ++ s →
        resourceGoogleCloudConnectionCreate lib dc m t
            = resourceGoogleCloudConnectionRead (dc.SetId s) m (t ++ [.AddConnection n0.Id c]) ∧
          (resourceGoogleCloudConnectionCreate lib dc m t).trace
            = t ++ [.AddConnection n0.Id c, .GetConnection s]) ∧
    (dn.SetId s).Id = s ∧ (dc.SetId s).Id = s := by
  have hnw := expand_network_link dc c n0 rest hexp hnet
  subst hbody
  refine ⟨?_, ?_, rfl, rfl⟩
  · intro resp u h hst hu hp
    have hbase : Base u.Path = s := by rw [hp]; exact Base_final_segment pre s hs hslash
    have hc : resourceNetworkCreate lib dn m t
        = resourceNetworkRead (dn.SetId s) m
            (t ++ [.AddNetwork dn.cur.account_id ⟨dn.cur.name, dn.cur.description, none⟩]) := by
      simp [resourceNetworkCreate, h, not_le.mpr hst, hu, hbase, hs]
    refine ⟨hc, ?_⟩
    rw [hc, resourceNetworkRead_trace]
    simp [ResourceData.Id, ResourceData.SetId]
  · intro resp u h hst hu hp
    have hbase : Base u.Path = s := by rw [hp]; exact Base_final_segment pre s hs hslash
    have hc : resourceGoogleCloudConnectionCreate lib dc m t
        = resourceGoogleCloudConnectionRead (dc.SetId s) m (t ++ [.AddConnection n0.Id c]) := by
      simp [resourceGoogleCloudConnectionCreate, hexp, hnw, h, not_le.mpr hst, hu, hbase, hs]
    refine ⟨hc, ?_⟩
    rw [hc, resourceGoogleCloudConnectionRead_trace]
    simp [ResourceData.Id, ResourceData.SetId]

/-- C3 at the location `/connections/abc123`: the identifier becomes `abc123`, the get is
made by `abc123`, and Create ends as that Read does. -/
theorem create_success_reads_final_segment_witness :
    (resourceNetworkCreate sampleLib newNetwork (acceptingSession "/connections/abc123") []
        = resourceNetworkRead (newNetwork.SetId "abc123")
            (acceptingSession "/connections/abc123")
            [.AddNetwork "ac-1" ⟨"net-new", "new", none⟩] ∧
      (resourceNetworkCreate sampleLib newNetwork
          (acceptingSession "/connections/abc123") []).trace
        = [.AddNetwork "ac-1" ⟨"net-new", "new", none⟩, .GetNetwork "abc123"]) ∧
    (resourceGoogleCloudConnectionCreate sampleLib newConnection
          (acceptingSession "/connections/abc123") []
        = resourceGoogleCloudConnectionRead (newConnection.SetId "abc123")
            (acceptingSession "/connections/abc123") [.AddConnection "net-9" googleBody] ∧
      (resourceGoogleCloudConnectionCreate sampleLib newConnection
          (acceptingSession "/connections/abc123") []).trace
        = [.AddConnection "net-9" googleBody, .GetConnection "abc123"]) :=
  have h := create_success_reads_final_segment sampleLib
    (acceptingSession "/connections/abc123") [] newNetwork newConnection
    ⟨"net-new", "new", none⟩ googleBody ⟨"net-9", "/networks/net-9"⟩ [] "/connections" "abc123"
    rfl rfl rfl (by decide) (by decide)
  ⟨h.1 ⟨201, "/connections/abc123"⟩ ⟨"/connections/abc123"⟩ rfl (by decide) rfl
      (by decide),
    h.2.1 ⟨201, "/connections/abc123"⟩ ⟨"/connections/abc123"⟩ rfl (by decide) rfl
      (by decide)⟩

/-- C5 (as stated, refuted): with a successful add whose location `%zz` does not parse,
both Creates return `nil`, not an error; and with a successful add that carries no
location at all, the identifier becomes `.` and a Read by `.` is attempted. -/
theorem create_undecodable_location_counterexample :
    (resourceNetworkCreate sampleLib newNetwork (acceptingSession "%zz") []).ret = .nil ∧
    (resourceGoogleCloudConnectionCreate sampleLib newConnection
      (acceptingSession "%zz") []).ret = .nil ∧
    (resourceNetworkCreate sampleLib newNetwork (acceptingSession "") []).trace
      = [.AddNetwork "ac-1" ⟨"net-new", "new", none⟩, .GetNetwork "."] ∧
    (resourceGoogleCloudConnectionCreate sampleLib newConnection
      (acceptingSession "") []).trace
      = [.AddConnection "net-9" googleBody, .GetConnection "."] ∧
    (resourceGoogleCloudConnectionCreate sampleLib newConnection
      (acceptingSession "") []).d.Id = "." := by
  refine ⟨?_, ?_, ?_, ?_, ?_⟩ <;> rfl

/-- C5 (amended): starting from an empty identifier, when the add call returns no error
and a status code below 300 but `url.Parse` rejects the location, Create returns `nil`,
leaves the record as it was (the identifier stays empty), and makes no request after the
add. -/
theorem create_unparsable_location (lib : Lib) (m : Session) (t : List Call)
    (dn : ResourceData NetworkFields) (dc : ResourceData GoogleFields)
    (body : Network) (c : GoogleCloudInterconnectConnection) (n0 : Link) (rest : List Link)
    (hbody : body = { Name := dn.cur.name, Description := dn.cur.description, Account := none })
    (hexp : expandGoogleCloudConnection dc = .ok c) (hnet : dc.cur.network = n0 :: rest)
    (hidn : dn.Id = "") (hidc : dc.Id = "") :
    (∀ resp e, m.AddNetwork t dn.cur.account_id body = (some resp, none) →
        resp.StatusCode < 300 → lib.urlParse resp.Location = .error e →
        resourceNetworkCreate lib dn m t
            = ⟨dn, t ++ [.AddNetwork dn.cur.account_id body], .nil⟩ ∧
          (resourceNetworkCreate lib dn m t).d.Id = "") ∧
    (∀ resp e, m.AddConnection t n0.Id c = (some resp, none) →
        resp.StatusCode < 300 → lib.urlParse resp.Location = .error e →
        resourceGoogleCloudConnectionCreate lib dc m t
            = ⟨dc, t ++ [.AddConnection n0.Id c], .nil⟩ ∧
          (resourceGoogleCloudConnectionCreate lib dc m t).d.Id = "") := by
  have hnw := expand_network_link dc c n0 rest hexp hnet
  subst hbody
  constructor
  · intro resp e h hst hu
    have hc : resourceNetworkCreate lib dn m t
        = ⟨dn, t ++ [.AddNetwork dn.cur.account_id ⟨dn.cur.name, dn.cur.description, none⟩],
            .nil⟩ := by
      simp [resourceNetworkCreate, h, not_le.mpr hst, hu]
    exact ⟨hc, by rw [hc]; exact hidn⟩
  · intro resp e h hst hu
    have hc : resourceGoogleCloudConnectionCreate lib dc m t
        = ⟨dc, t ++ [.AddConnection n0.Id c], .nil⟩ := by
      simp [resourceGoogleCloudConnectionCreate, hexp, hnw, h, not_le.mpr hst, hu]
    exact ⟨hc, by rw [hc]; exact hidc⟩

/-- C5 (amended) at the location `%zz`. -/
theorem create_unparsable_location_witness :
    (resourceNetworkCreate sampleLib newNetwork (acceptingSession "%zz") []
        = ⟨newNetwork, [.AddNetwork "ac-1" ⟨"net-new", "new", none⟩], .nil⟩ ∧
      (resourceNetworkCreate sampleLib newNetwork (acceptingSession "%zz") []).d.Id = "") ∧
    (resourceGoogleCloudConnectionCreate sampleLib newConnection (acceptingSession "%zz") []
        = ⟨newConnection, [.AddConnection "net-9" googleBody], .nil⟩ ∧
      (resourceGoogleCloudConnectionCreate sampleLib newConnection
        (acceptingSession "%zz") []).d.Id = "") :=
  have h := create_unparsable_location sampleLib (acceptingSession "%zz") [] newNetwork
    newConnection ⟨"net-new", "new", none⟩ googleBody ⟨"net-9", "/networks/net-9"⟩ []
    rfl rfl rfl rfl rfl
  ⟨h.1 ⟨201, "%zz"⟩ "invalid URL escape" rfl (by decide) rfl,
    h.2 ⟨201, "%zz"⟩ "invalid URL escape" rfl (by decide) rfl⟩

/-! ## Update -/

/-- The field-by-field block of Update does not touch the identifier. -/
theorem updateChanges_id (d : ResourceData GoogleFields)
    (c : GoogleCloudInterconnectConnection) : (updateChanges d c).2.Id = d.Id := by
  simp only [updateChanges, ResourceData.Id, ResourceData.SetPartial]
  by_cases h1 : d.state.name = d.cur.name <;>
    by_cases h2 : d.state.description = d.cur.description <;>
    by_cases h3 : d.state.speed = d.cur.speed <;>
    simp [h1, h2, h3]

/-- C4: when the update call fails, with a `GenericSwaggerError` whose body decodes to an
object with a numeric `status`, or with a status code of 300 or more, Update returns an
error, the identifier is the one the record had, and the update is the only request made
(no Read); the same status code returned to Create leaves the identifier empty. -/
theorem update_failure_keeps_identifier (lib : Lib) (m : Session) (t : List Call)
    (dc : ResourceData GoogleFields) (c body : GoogleCloudInterconnectConnection)
    (n0 : Link) (rest : List Link)
    (hexp : expandGoogleCloudConnection dc = .ok c) (hnet : dc.cur.network = n0 :: rest)
    (hbody : body = (updateChanges (dc.Partial true) c).1) :
    (∀ x resp text msg obj num,
        m.UpdateConnection t dc.Id body = (x, resp, some (.GenericSwaggerError text msg)) →
        lib.ExpandJsonFromString text = .ok obj →
        obj.lookup "status" = some (.float64 num) →
        (resourceGoogleCloudConnectionUpdate lib dc m t).ret
            = .error "Error while updating Google Cloud Connection: err=%!s(<nil>)" ∧
          (resourceGoogleCloudConnectionUpdate lib dc m t).d.Id = dc.Id ∧
          (resourceGoogleCloudConnectionUpdate lib dc m t).trace
            = t ++ [.UpdateConnection dc.Id body]) ∧
    (∀ x resp, m.UpdateConnection t dc.Id body = (x, some resp, none) →
        resp.StatusCode ≥ 300 →
        (resourceGoogleCloudConnectionUpdate lib dc m t).ret
            = .error ("Error Response while updating Google Cloud Connection: code=" ++
                toString resp.StatusCode) ∧
          (resourceGoogleCloudConnectionUpdate lib dc m t).d.Id = dc.Id ∧
          (resourceGoogleCloudConnectionUpdate lib dc m t).trace
            = t ++ [.UpdateConnection dc.Id body]) ∧
    (∀ resp, m.AddConnection t n0.Id c = (some resp, none) →
        resp.StatusCode ≥ 300 →
        (resourceGoogleCloudConnectionCreate lib dc m t).ret = .nil ∧
          (resourceGoogleCloudConnectionCreate lib dc m t).d.Id = "") := by
  have hnw := expand_network_link dc c n0 rest hexp hnet
  have hid := updateChanges_id (dc.Partial true) c
  rcases hu : updateChanges (dc.Partial true) c with ⟨c1, d1⟩
  rw [hu] at hbody hid
  simp only at hbody hid
  subst hbody
  have hid1 : d1.Id = dc.Id := hid
  refine ⟨?_, ?_, ?_⟩
  · intro x resp text msg obj num h hj hst
    rw [← hid1] at h
    simp [resourceGoogleCloudConnectionUpdate, hexp, hu, h, hj, hst, googleConnectionName]
    exact hid1
  · intro x resp h hs
    rw [← hid1] at h
    simp [resourceGoogleCloudConnectionUpdate, hexp, hu, h, hs, googleConnectionName]
    exact hid1
  · intro resp h hs
    simp [resourceGoogleCloudConnectionCreate, hexp, hnw, h, hs, ResourceData.SetId,
      ResourceData.Id]

/-- C4 at the record with identifier `x1` and status 409: Update returns an error and
keeps `x1`; Create returns `nil` with an empty identifier. -/
theorem update_failure_keeps_identifier_witness :
    ((resourceGoogleCloudConnectionUpdate sampleLib knownConnection conflictSession []).ret
        = .error "Error while updating Google Cloud Connection: err=%!s(<nil>)" ∧
      (resourceGoogleCloudConnectionUpdate sampleLib knownConnection conflictSession []).d.Id
        = "x1" ∧
      (resourceGoogleCloudConnectionUpdate sampleLib knownConnection conflictSession []).trace
        = [.UpdateConnection "x1" googleBody]) ∧
    ((resourceGoogleCloudConnectionUpdate sampleLib knownConnection statusOnlySession []).ret
        = .error "Error Response while updating Google Cloud Connection: code=409" ∧
      (resourceGoogleCloudConnectionUpdate sampleLib knownConnection statusOnlySession []).d.Id
        = "x1" ∧
      (resourceGoogleCloudConnectionUpdate sampleLib knownConnection statusOnlySession []).trace
        = [.UpdateConnection "x1" googleBody]) ∧
    ((resourceGoogleCloudConnectionCreate sampleLib knownConnection statusOnlySession []).ret
        = .nil ∧
      (resourceGoogleCloudConnectionCreate sampleLib knownConnection statusOnlySession []).d.Id
        = "") :=
  have h1 := update_failure_keeps_identifier sampleLib conflictSession [] knownConnection
    googleBody googleBody ⟨"net-9", "/networks/net-9"⟩ [] rfl rfl rfl
  have h2 := update_failure_keeps_identifier sampleLib statusOnlySession [] knownConnection
    googleBody googleBody ⟨"net-9", "/networks/net-9"⟩ [] rfl rfl rfl
  ⟨h1.1 (.otherType "") (some ⟨409, ""⟩) duplicateBody "409 Conflict" _ "409" rfl rfl rfl,
    h2.2.1 (.otherType "") ⟨409, ""⟩ rfl (by decide),
    h2.2.2 ⟨409, ""⟩ rfl (by decide)⟩

/-- C10 (what the code does): when the add or the update call fails with a
`GenericSwaggerError` whose body decodes to a JSON object without a numeric `status`,
Create and Update stop with a panic (the type assertion
`response["status"].(float64)` fails) instead of returning. -/
theorem error_body_without_status_aborts (lib : Lib) (m : Session) (t : List Call)
    (dc : ResourceData GoogleFields) (c body : GoogleCloudInterconnectConnection)
    (n0 : Link) (rest : List Link) (obj : List (String × JsonValue))
    (hexp : expandGoogleCloudConnection dc = .ok c) (hnet : dc.cur.network = n0 :: rest)
    (hbody : body = (updateChanges (dc.Partial true) c).1)
    (hst : ∀ num, obj.lookup "status" ≠ some (.float64 num)) :
    (∀ resp text msg,
        m.AddConnection t n0.Id c = (resp, some (.GenericSwaggerError text msg)) →
        lib.ExpandJsonFromString text = .ok obj →
        (resourceGoogleCloudConnectionCreate lib dc m t).ret = .abort interfaceConversion) ∧
    (∀ x resp text msg,
        m.UpdateConnection t dc.Id body = (x, resp, some (.GenericSwaggerError text msg)) →
        lib.ExpandJsonFromString text = .ok obj →
        (resourceGoogleCloudConnectionUpdate lib dc m t).ret = .abort interfaceConversion) := by
  have hnw := expand_network_link dc c n0 rest hexp hnet
  have hid := updateChanges_id (dc.Partial true) c
  rcases hu : updateChanges (dc.Partial true) c with ⟨c1, d1⟩
  rw [hu] at hbody hid
  simp only at hbody hid
  subst hbody
  have hid1 : d1.Id = dc.Id := hid
  constructor
  · intro resp text msg h hj
    simp only [resourceGoogleCloudConnectionCreate, hexp, hnw, h, hj]
  · intro x resp text msg h hj
    rw [← hid1] at h
    simp only [resourceGoogleCloudConnectionUpdate, hexp, hu, h, hj]

/-- C10 at an error whose body is the empty JSON object: Create and Update panic. -/
theorem error_body_without_status_aborts_witness :
    (resourceGoogleCloudConnectionCreate sampleLib newConnection emptyBodySession []).ret
        = .abort interfaceConversion ∧
      (resourceGoogleCloudConnectionUpdate sampleLib knownConnection emptyBodySession []).ret
        = .abort interfaceConversion :=
  ⟨(error_body_without_status_aborts sampleLib emptyBodySession [] newConnection googleBody
      googleBody ⟨"net-9", "/networks/net-9"⟩ [] [] rfl rfl rfl (by simp)).1
      (some ⟨500, ""⟩) "\x7b\x7d" "500 Internal Server Error" rfl rfl,
    (error_body_without_status_aborts sampleLib emptyBodySession [] knownConnection googleBody
      googleBody ⟨"net-9", "/networks/net-9"⟩ [] [] rfl rfl rfl (by simp)).2
      (.otherType "") (some ⟨500, ""⟩) "\x7b\x7d" "500 Internal Server Error" rfl rfl⟩

/-- When the add or the update call fails with a `GenericSwaggerError` whose body is not
JSON, Create returns `nil` with an empty identifier and Update returns an error with the
identifier it had. -/
theorem error_body_not_json (lib : Lib) (m : Session) (t : List Call)
    (dc : ResourceData GoogleFields) (c body : GoogleCloudInterconnectConnection)
    (n0 : Link) (rest : List Link)
    (hexp : expandGoogleCloudConnection dc = .ok c) (hnet : dc.cur.network = n0 :: rest)
    (hbody : body = (updateChanges (dc.Partial true) c).1) :
    (∀ resp text msg e,
        m.AddConnection t n0.Id c = (resp, some (.GenericSwaggerError text msg)) →
        lib.ExpandJsonFromString text = .error e →
        resourceGoogleCloudConnectionCreate lib dc m t
          = ⟨dc.SetId "", t ++ [.AddConnection n0.Id c], .nil⟩) ∧
    (∀ x resp text msg e,
        m.UpdateConnection t dc.Id body = (x, resp, some (.GenericSwaggerError text msg)) →
        lib.ExpandJsonFromString text = .error e →
        (resourceGoogleCloudConnectionUpdate lib dc m t).ret
            = .error ("Error while updating Google Cloud Connection: err=" ++ e) ∧
          (resourceGoogleCloudConnectionUpdate lib dc m t).d.Id = dc.Id) := by
  have hnw := expand_network_link dc c n0 rest hexp hnet
  have hid := updateChanges_id (dc.Partial true) c
  rcases hu : updateChanges (dc.Partial true) c with ⟨c1, d1⟩
  rw [hu] at hbody hid
  simp only at hbody hid
  subst hbody
  have hid1 : d1.Id = dc.Id := hid
  constructor
  · intro resp text msg e h hj
    simp [resourceGoogleCloudConnectionCreate, hexp, hnw, h, hj]
  · intro x resp text msg e h hj
    rw [← hid1] at h
    simp [resourceGoogleCloudConnectionUpdate, hexp, hu, h, hj, googleConnectionName]
    exact hid1

/-! ## What Read writes into the record -/

/-- C6 (what the code does): after a successful get that returns a Google Cloud
connection with a location and a network link, `resourceGoogleCloudConnectionRead`
returns `nil` with `speed` and `network` taken from the fetched object, but `name` is the
name the record held before the Read. -/
theorem connection_read_leaves_name (m : Session) (t : List Call)
    (d : ResourceData GoogleFields) (conn : GoogleCloudInterconnectConnection)
    (resp : Response) (location network : Link)
    (h : m.GetConnection t d.Id = (.google conn, some resp, none))
    (hst : resp.StatusCode < 300)
    (hloc : conn.Location = some location) (hnw : conn.Network = some network) :
    (resourceGoogleCloudConnectionRead d m t).ret = .nil ∧
      (resourceGoogleCloudConnectionRead d m t).d.cur.speed = conn.Speed ∧
      (resourceGoogleCloudConnectionRead d m t).d.cur.network
        = [⟨network.Id, network.Href⟩] ∧
      (resourceGoogleCloudConnectionRead d m t).d.cur.name = d.cur.name := by
  simp [resourceGoogleCloudConnectionRead, h, not_le.mpr hst, hloc, hnw]

/-- C6 at a record named `conn-new` and a fetched connection named `conn-remote`: after
the Read the record is still named `conn-new`. -/
theorem connection_read_leaves_name_witness :
    remoteConnection.Name = "conn-remote" ∧
      (resourceGoogleCloudConnectionRead knownConnection (acceptingSession "") []).ret
        = .nil ∧
      (resourceGoogleCloudConnectionRead knownConnection (acceptingSession "") []).d.cur.speed
        = 100 ∧
      (resourceGoogleCloudConnectionRead knownConnection
        (acceptingSession "") []).d.cur.network = [⟨"net-9", "/networks/net-9"⟩] ∧
      (resourceGoogleCloudConnectionRead knownConnection (acceptingSession "") []).d.cur.name
        = "conn-new" :=
  ⟨rfl, connection_read_leaves_name (acceptingSession "") [] knownConnection remoteConnection
    ⟨200, ""⟩ ⟨"loc-1", "/locations/loc-1"⟩ ⟨"net-9", "/networks/net-9"⟩ rfl (by decide)
    rfl rfl⟩

/-- C7 (what the code does): `resourceNetworkUpdate` sends no update request.  It is
exactly `resourceNetworkRead`: the get by the identifier is the only request it makes,
and when that get succeeds Update returns `nil` with the name and the description of the
record overwritten by the fetched ones, so a change of either is lost. -/
theorem network_update_is_read (d : ResourceData NetworkFields) (m : Session)
    (t : List Call) :
    resourceNetworkUpdate d m t = resourceNetworkRead d m t ∧
      (resourceNetworkUpdate d m t).trace = t ++ [.GetNetwork d.Id] ∧
      (∀ n resp account, m.GetNetwork t d.Id = (n, some resp, none) →
        resp.StatusCode < 300 → n.Account = some account →
        (resourceNetworkUpdate d m t).ret = .nil ∧
          (resourceNetworkUpdate d m t).d.cur.name = n.Name ∧
          (resourceNetworkUpdate d m t).d.cur.description = n.Description) := by
  refine ⟨rfl, resourceNetworkRead_trace d m t, ?_⟩
  intro n resp account h hst hacc
  simp [resourceNetworkUpdate, resourceNetworkRead, h, not_le.mpr hst, hacc]

/-- C7 at the network record `x1` whose name and description were changed from
`net-remote` / `remote` to `net-new` / `new`: Update makes the get by `x1` and nothing
else (no update request is among its requests), returns `nil`, and leaves the record with
the remote name and description again. -/
theorem network_update_is_read_witness :
    changedNetwork.cur.name = "net-new" ∧ changedNetwork.state.name = "net-remote" ∧
      changedNetwork.cur.description = "new" ∧ changedNetwork.state.description = "remote" ∧
      (resourceNetworkUpdate changedNetwork (acceptingSession "") []).trace
        = [.GetNetwork "x1"] ∧
      (∀ body, Call.UpdateNetwork "x1" body ∉
        (resourceNetworkUpdate changedNetwork (acceptingSession "") []).trace) ∧
      (resourceNetworkUpdate changedNetwork (acceptingSession "") []).ret = .nil ∧
      (resourceNetworkUpdate changedNetwork (acceptingSession "") []).d.cur.name
        = "net-remote" ∧
      (resourceNetworkUpdate changedNetwork (acceptingSession "") []).d.cur.description
        = "remote" := by
  have h := network_update_is_read changedNetwork (acceptingSession "") []
  have ht : (resourceNetworkUpdate changedNetwork (acceptingSession "") []).trace
      = [.GetNetwork "x1"] := h.2.1
  have hr := h.2.2 remoteNetwork ⟨200, ""⟩ ⟨"ac-1", "/accounts/ac-1"⟩ rfl (by decide) rfl
  refine ⟨rfl, rfl, rfl, rfl, ht, ?_, hr.1, hr.2.1, hr.2.2⟩
  intro body
  rw [ht]
  simp

/-! ## The accounts data source -/

/-- C8 (as stated, refuted): with the pattern `prod`, the account named `my-prod-x` is
written to the record although its whole name is not a match of the pattern (the name
only contains one). -/
theorem accounts_filter_counterexample :
    sampleLib.MustCompile "prod" = some prodLiteral ∧
      prodLiteral.matchesWhole acctMyProd.Name = false ∧
      (dataSourceAccountsRead sampleLib (accountsData "prod") accountsSession []).d.cur.accounts
        = flattenAccounts [acctMyProd, acctProdA, acctProdB] := by
  refine ⟨rfl, by decide, ?_⟩
  decide

/-- C8 (amended): for a successfully fetched collection and a supplied pattern, the
accounts written to the record are the fetched accounts whose name contains a match of
the pattern (`MatchString`), in ascending order of identifier. -/
theorem accounts_filtered_and_sorted (lib : Lib) (m : Session) (t : List Call)
    (d : ResourceData AccountsFields) (accounts : List Account) (resp : Response)
    (r : Regexp)
    (h : m.FindAllAccounts t = (accounts, some resp, none)) (hst : resp.StatusCode < 300)
    (hp : d.cur.name_regex ≠ "") (hr : lib.MustCompile d.cur.name_regex = some r) :
    (dataSourceAccountsRead lib d m t).d.cur.accounts
        = flattenAccounts (sortSlice (accounts.filter (fun a => r.MatchString a.Name))) ∧
      (sortSlice (accounts.filter (fun a => r.MatchString a.Name))).Perm
        (accounts.filter (fun a => r.MatchString a.Name)) ∧
      (sortSlice (accounts.filter (fun a => r.MatchString a.Name))).Sorted idLE := by
  refine ⟨?_, List.perm_insertionSort idLE _, List.sorted_insertionSort idLE _⟩
  simp only [dataSourceAccountsRead, h, not_le.mpr hst, hr]
  simp only [ne_eq, hp, not_false_eq_true, decide_True, if_true, if_false]
  cases lib.Marshal accounts <;> rfl

/-- C8 (amended) at the pattern `^prod-.*$` over the names prod-b, dev-a, prod-a and
my-prod-x: exactly prod-a and prod-b are written, in the order of their identifiers. -/
theorem accounts_filtered_and_sorted_witness :
    (dataSourceAccountsRead sampleLib (accountsData "^prod-.*$")
        accountsSession []).d.cur.accounts
      = flattenAccounts [acctProdA, acctProdB] :=
  (accounts_filtered_and_sorted sampleLib accountsSession [] (accountsData "^prod-.*$")
    fetchedAccounts ⟨200, ""⟩ _ rfl (by decide) (by decide) rfl).1.trans (by decide)

/-- C9 (what the code does): for a successfully fetched collection, the identifier set
when a pattern is supplied is the hash of the serialization of the collection as fetched,
but the identifier set when no pattern is supplied is the hash of the serialization of
the collection sorted by identifier (the sort reorders the fetched slice itself). -/
theorem accounts_view_id (lib : Lib) (m : Session) (t : List Call)
    (dNone dPattern : ResourceData AccountsFields) (accounts : List Account)
    (resp : Response) (r : Regexp) (dataFetched dataSorted : String)
    (h : m.FindAllAccounts t = (accounts, some resp, none)) (hst : resp.StatusCode < 300)
    (hnone : dNone.cur.name_regex = "")
    (hp : dPattern.cur.name_regex ≠ "") (hr : lib.MustCompile dPattern.cur.name_regex = some r)
    (hfetched : lib.Marshal accounts = .ok dataFetched)
    (hsorted : lib.Marshal (sortSlice accounts) = .ok dataSorted) :
    (dataSourceAccountsRead lib dPattern m t).d.Id = toString (lib.hashcodeString dataFetched) ∧
      (dataSourceAccountsRead lib dNone m t).d.Id
        = toString (lib.hashcodeString dataSorted) := by
  constructor
  · simp [dataSourceAccountsRead, h, not_le.mpr hst, hp, hr, hfetched, ResourceData.Id,
      ResourceData.SetId]
  · simp [dataSourceAccountsRead, h, not_le.mpr hst, hnone, hsorted, ResourceData.Id,
      ResourceData.SetId]

set_option maxRecDepth 8000 in
/-- C9 at the collection of the examples, which the API returns unsorted: the run with
the pattern `prod` hashes the collection as fetched, the run without a pattern hashes the
sorted collection, and the two identifiers differ. -/
theorem accounts_view_id_witness :
    (dataSourceAccountsRead sampleLib (accountsData "prod") accountsSession []).d.Id
        = toString (sampleHashcode "ac-4:prod-b,ac-3:dev-a,ac-2:prod-a,ac-1:my-prod-x") ∧
      (dataSourceAccountsRead sampleLib (accountsData "") accountsSession []).d.Id
        = toString (sampleHashcode "ac-1:my-prod-x,ac-2:prod-a,ac-3:dev-a,ac-4:prod-b") ∧
      (dataSourceAccountsRead sampleLib (accountsData "prod") accountsSession []).d.Id
        ≠ (dataSourceAccountsRead sampleLib (accountsData "") accountsSession []).d.Id :=
  have h := accounts_view_id sampleLib accountsSession [] (accountsData "")
    (accountsData "prod") fetchedAccounts ⟨200, ""⟩ prodLiteral
    "ac-4:prod-b,ac-3:dev-a,ac-2:prod-a,ac-1:my-prod-x"
    "ac-1:my-prod-x,ac-2:prod-a,ac-3:dev-a,ac-4:prod-b"
    rfl (by decide) rfl (by decide) rfl rfl rfl
  have e1 : toString (sampleHashcode "ac-4:prod-b,ac-3:dev-a,ac-2:prod-a,ac-1:my-prod-x")
      = "1850299171" := by rfl
  have e2 : toString (sampleHashcode "ac-1:my-prod-x,ac-2:prod-a,ac-3:dev-a,ac-4:prod-b")
      = "2926115379" := by rfl
  ⟨h.1, h.2, by
    rw [h.1, h.2]
    show toString (sampleHashcode _) ≠ toString (sampleHashcode _)
    rw [e1, e2]
    decide⟩

end Pureport
